import Mathlib

/-!
Verification of `examples/2d/pixel_grid_snap.rs` (bevy pixel-grid-snap demo).

The example renders a low-resolution scene (160 by 90) to an offscreen image
and upscales it onto the window, recomputing an integer fit factor on every
window resize.  We embed the example shallowly:

* `f32` arithmetic of the resize handler is idealised over `Rat`.  Every
  concrete value appearing in theorems below (window sizes that are multiples
  of the buffer halves, quotients such as 1.5 and 3.125) is exactly
  representable in `f32` and the divisions involved are exact there, so the
  concrete evaluations match the Rust program bit for bit.  `1.0 / 0.0`,
  which in `f32` yields positive infinity, is modelled by the dedicated
  `ProjScale.posInf` constructor.
* Rust's `f32::round` rounds half away from zero; `rustRound` mirrors that.
* The ECS world is modelled explicitly: component records for the cameras,
  the canvas sprite and the drawables, and each system as a function on that
  state.  `Query::single_mut`, which panics unless exactly one entity
  matches, is modelled with `Except`.
* The only rotation ever applied in the example is `Transform::rotate_z`, so
  a transform's rotation is represented by its accumulated z-angle, stored
  in units of pi radians (`rotationZPi = r` means a rotation by `r * pi`
  about the z axis); `rotate_z(dt * PI / 2.)` therefore adds `dt / 2`.
-/

/-- `const RES_WIDTH: u32 = 160;` -/
def RES_WIDTH : ℕ := 160

/-- `const RES_HEIGHT: u32 = 90;` -/
def RES_HEIGHT : ℕ := 90

/-- Rust's `f32::round`: round to the nearest integer, ties away from zero. -/
def rustRound (q : ℚ) : ℤ := if 0 ≤ q then ⌊q + 1 / 2⌋ else ⌈q - 1 / 2⌉

/-- The fit-scale arithmetic of `fit_canvas`, generalised over the buffer
dimensions `bw, bh` (the source fixes them to `RES_WIDTH`, `RES_HEIGHT`):
`h_scale = ww / bw`, `v_scale = wh / bh`, then `h_scale.min(v_scale).round()`. -/
def fitScaleGen (bw bh ww wh : ℚ) : ℤ := rustRound (min (ww / bw) (wh / bh))

/-- Lines 155-158 of the source: the integer fit factor computed for a
`WindowResized` event of size `ww` by `wh`. -/
def fitScale (ww wh : ℚ) : ℤ := fitScaleGen (RES_WIDTH : ℚ) (RES_HEIGHT : ℚ) ww wh

/-- An `f32` projection-scale value: either a finite rational or positive
infinity (the result of `1.0 / 0.0` in `f32`). -/
inductive ProjScale where
  | finite (q : ℚ)
  | posInf
deriving DecidableEq, Repr

/-- `projection.scale = 1. / fit` where `fit` is the rounded min: division of
`1.0` by `0.0` yields positive infinity in `f32`. -/
def projFromFit (f : ℤ) : ProjScale :=
  if f = 0 then ProjScale.posInf else ProjScale.finite (1 / (f : ℚ))

/-- The single mutable field of bevy's `OrthographicProjection` touched by
this example.  The one scalar `scale` multiplies both viewport axes. -/
structure OrthographicProjection where
  scale : ProjScale
deriving DecidableEq, Repr

/-- World-space extent covered by an orthographic projection of scalar scale
`s` over a viewport of size `vw` by `vh`: bevy multiplies both axes by the
same `s` (default `ScalingMode::WindowSize`). -/
def projectedSize (s : ℚ) (vw vh : ℚ) : ℚ × ℚ := (s * vw, s * vh)

/-- A `Transform`.  The rotation is the accumulated z-angle in units of pi
radians (the example only ever rotates about z, via `rotate_z`). -/
structure Transform where
  translation : ℚ × ℚ × ℚ
  rotationZPi : ℚ
  scale : ℚ × ℚ × ℚ
deriving DecidableEq, Repr

/-- `Transform::rotate_z`, for an angle of `c * pi` radians: composing two
rotations about the z axis adds their angles; translation and scale are
untouched. -/
def rotateZ (t : Transform) (c : ℚ) : Transform :=
  { t with rotationZPi := t.rotationZPi + c }

/-- A scene entity as seen by `transform_drawables`: its `Transform` plus
whether it carries the `Drawable` marker component. -/
structure Entity where
  drawable : Bool
  transform : Transform
deriving DecidableEq, Repr

/-- Lines 142-147: `transform_drawables` queries
`Query<&mut Transform, With<Drawable>>` and applies
`transform.rotate_z(dt * PI / 2.)` to each match, where
`dt = time.delta_seconds()`.  An angle of `dt * pi / 2` radians is `dt / 2`
in units of pi. -/
def transform_drawables (dt : ℚ) (es : List Entity) : List Entity :=
  es.map (fun e =>
    if e.drawable then { e with transform := rotateZ e.transform (dt / 2) } else e)

/-- A camera's render target: the window, or an offscreen `Image` keyed by
its asset handle. -/
inductive RenderTarget where
  | window
  | image (handle : ℕ)
deriving DecidableEq, Repr

/-- Handle of the canvas `Image` allocated in `setup_camera`. -/
def canvasImageHandle : ℕ := 0

/-- Handle of the sensei sprite texture loaded in `setup_sprite`. -/
def senseiTextureHandle : ℕ := 1

/-- The camera components this example configures: `Camera.order`,
`Camera.target`, and the camera's `RenderLayers` (layer memberships; bevy's
default is layer 0 when the component is absent). -/
structure CameraEntity where
  order : ℤ
  target : RenderTarget
  layers : List ℕ
deriving DecidableEq, Repr

/-- Lines 113-125: the camera tagged `InGameCamera`: `order: -1`,
`target: RenderTarget::Image(image_handle)`, `RenderLayers::layer(1)`. -/
def inGameCamera : CameraEntity :=
  { order := -1, target := RenderTarget.image canvasImageHandle, layers := [1] }

/-- Line 138: the camera tagged `OuterCamera`: a default `Camera2dBundle`,
hence `order: 0`, window target, default render layer 0. -/
def outerCamera : CameraEntity :=
  { order := 0, target := RenderTarget.window, layers := [0] }

/-- A non-camera entity spawned by the setup systems: its `RenderLayers`
membership (default layer 0 when the component is absent), its sprite
texture handle if any, and whether it is tagged `Drawable`. -/
structure SpawnedEntity where
  layers : List ℕ
  texture : Option ℕ
  drawable : Bool
deriving DecidableEq, Repr

/-- Lines 45-53: sensei sprite on `RenderLayers::layer(1)`, tagged
`Drawable`. -/
def innerSensei : SpawnedEntity :=
  { layers := [1], texture := some senseiTextureHandle, drawable := true }

/-- Lines 56-63: second sensei sprite, no `RenderLayers` component (default
layer 0), tagged `Drawable`. -/
def outerSensei : SpawnedEntity :=
  { layers := [0], texture := some senseiTextureHandle, drawable := true }

/-- Lines 71-80: black quad mesh on `RenderLayers::layer(1)`, tagged
`Drawable`. -/
def blackSquare : SpawnedEntity :=
  { layers := [1], texture := none, drawable := true }

/-- Lines 128-134: the canvas sprite, textured with the offscreen image, no
`RenderLayers` component (default layer 0), tagged `Canvas`. -/
def canvasSprite : SpawnedEntity :=
  { layers := [0], texture := some canvasImageHandle, drawable := false }

/-- Every non-camera entity spawned by `setup_sprite`, `setup_mesh` and
`setup_camera`. -/
def sceneEntities : List SpawnedEntity :=
  [innerSensei, outerSensei, blackSquare, canvasSprite]

/-- Bevy render-layer visibility: a camera draws an entity iff their layer
sets intersect. -/
def camSees (c : CameraEntity) (e : SpawnedEntity) : Bool :=
  c.layers.any (fun l => e.layers.contains l)

/-- Whether an entity is tagged with the inner render layer (layer 1). -/
def taggedInner (e : SpawnedEntity) : Bool := e.layers.contains 1

/-- Camera draw ordering: bevy renders cameras in increasing `Camera.order`,
so `a` draws strictly before `b` iff `a.order < b.order`. -/
def drawsBefore (a b : CameraEntity) : Prop := a.order < b.order

/-- The example's world state mutated after startup: both cameras, the outer
camera's orthographic projection, the canvas sprite's transform, and the
drawable entities. -/
structure PixelWorld where
  inGameCam : CameraEntity
  outerCam : CameraEntity
  outerProjection : OrthographicProjection
  canvasTransform : Transform
  entities : List Entity
deriving DecidableEq, Repr

/-- Lines 154-159, the body of the `fit_canvas` event loop for one
`WindowResized` event of size `ww` by `wh`:
`projection.scale = 1. / h_scale.min(v_scale).round();` on the outer
camera's projection.  Nothing else in the world is touched. -/
def fit_canvas_step (ww wh : ℚ) (w : PixelWorld) : PixelWorld :=
  { w with outerProjection := { scale := projFromFit (fitScale ww wh) } }

/-- Failure modes of `Query::single_mut`: it panics unless exactly one
entity matches the query. -/
inductive QueryErr where
  | noEntities
  | multipleEntities
deriving DecidableEq, Repr

/-- `q.single_mut()` on the query
`Query<&mut OrthographicProjection, With<OuterCamera>>`: returns the unique
match, and panics (modelled as `Except.error`) when there is none or more
than one. -/
def single_mut (projs : List OrthographicProjection) :
    Except QueryErr OrthographicProjection :=
  match projs with
  | [] => Except.error QueryErr.noEntities
  | [p] => Except.ok p
  | _ :: _ :: _ => Except.error QueryErr.multipleEntities

/-- One iteration of the `fit_canvas` loop over the query result: fetch the
single outer projection (panicking if it is missing), then overwrite its
scale from the event's window size. -/
def fit_canvas_run (ww wh : ℚ) (projs : List OrthographicProjection) :
    Except QueryErr (List OrthographicProjection) :=
  match single_mut projs with
  | Except.error e => Except.error e
  | Except.ok _ => Except.ok [{ scale := projFromFit (fitScale ww wh) }]

/-- The fit scale the spec prescribes (section 4.2, step 3):
`floor(min(ww / bw, wh / bh))` with the source's fixed buffer 160 by 90.
Stated from the spec's words, to be compared with the source's `fitScale`. -/
def specFitScaleFloor (ww wh : ℚ) : ℤ := ⌊min (ww / 160) (wh / 90)⌋

/-- Round-half-away-from-zero of `min(ww / 160, wh / 90)`, written for
nonnegative arguments as `floor(x + 1/2)`: the fit scale the source actually
computes, stated independently of `rustRound` for comparison with the
handler. -/
def specFitScaleRound (ww wh : ℚ) : ℤ := ⌊min (ww / 160) (wh / 90) + 1 / 2⌋

/-- Bevy's `Transform::default`: zero translation, identity rotation, unit
scale. -/
def defaultTransform : Transform :=
  { translation := (0, 0, 0), rotationZPi := 0, scale := (1, 1, 1) }

/-- A concrete world state after startup, with a prior valid projection
scale of `1/2` (the result of a 320 by 180 resize). -/
def demoWorld : PixelWorld :=
  { inGameCam := inGameCamera
    outerCam := outerCamera
    outerProjection := { scale := ProjScale.finite (1 / 2) }
    canvasTransform := defaultTransform
    entities := [] }

/-- A concrete entity tagged `Drawable`. -/
def demoDrawable : Entity := { drawable := true, transform := defaultTransform }

/-- A concrete entity not tagged `Drawable`. -/
def demoStatic : Entity := { drawable := false, transform := defaultTransform }

/-- A concrete entity list with one drawable and one non-drawable. -/
def demoEntities : List Entity := [demoDrawable, demoStatic]

/-- `demoDrawable` after one `rotate_z(dt * PI / 2.)` tick with `dt = 1`. -/
def demoRotated : Entity :=
  { demoDrawable with transform := rotateZ demoDrawable.transform (1 / 2) }

/-!  Helper lemmas about the rounding arithmetic. -/

theorem rustRound_eq_floor (q : ℚ) (h : 0 ≤ q) : rustRound q = ⌊q + 1 / 2⌋ :=
  if_pos h

theorem rustRound_le_add_half (q : ℚ) (h : 0 ≤ q) :
    (rustRound q : ℚ) ≤ q + 1 / 2 := by
  rw [rustRound_eq_floor q h]
  exact Int.floor_le _

theorem rustRound_mono (a b : ℚ) (ha : 0 ≤ a) (hab : a ≤ b) :
    rustRound a ≤ rustRound b := by
  rw [rustRound_eq_floor a ha, rustRound_eq_floor b (ha.trans hab)]
  exact Int.floor_mono (by linarith)

theorem min_scales_nonneg (bw bh ww wh : ℚ) (hbw : 0 < bw) (hbh : 0 < bh)
    (hww : 0 ≤ ww) (hwh : 0 ≤ wh) : 0 ≤ min (ww / bw) (wh / bh) :=
  le_min (div_nonneg hww hbw.le) (div_nonneg hwh hbh.le)

theorem res_width_cast : ((RES_WIDTH : ℕ) : ℚ) = 160 := by norm_num [RES_WIDTH]

theorem res_height_cast : ((RES_HEIGHT : ℕ) : ℚ) = 90 := by norm_num [RES_HEIGHT]

/-!  Claim theorems. -/

/-- Claim C1, counterexample: at the resize event 320 by 180... rather, at
240 by 135 both quotients are 1.5, whose floor is 1, yet the handler rounds
to 2 and sets the scale to 1/2, not to the reciprocal of the floored
minimum.  All quantities involved are exactly representable in `f32` and
those divisions are exact, so the Rust program agrees bit for bit. -/
theorem fit_canvas_not_floor_cex :
    (fit_canvas_step 240 135 demoWorld).outerProjection.scale ≠
      ProjScale.finite (1 / (specFitScaleFloor 240 135 : ℚ)) := by
  have h1 : specFitScaleFloor 240 135 = 1 := by norm_num [specFitScaleFloor]
  have h2 : fitScale 240 135 = 2 := by
    norm_num [fitScale, fitScaleGen, rustRound, RES_WIDTH, RES_HEIGHT]
  simp [fit_canvas_step, projFromFit, h1, h2]

/-- Claim C1, amended: for every resize event with positive window
dimensions whose computed fit scale is at least 1, `fit_canvas` computes the
fit scale as the ROUND-HALF-AWAY-FROM-ZERO (not the floor) of
`min(ww / bw, wh / bh)` and sets the outer camera's projection scale to
`1 / fit_scale`. -/
theorem fit_canvas_sets_reciprocal_round (ww wh : ℚ) (hww : 0 < ww)
    (hwh : 0 < wh) (hf : 1 ≤ fitScale ww wh) (w : PixelWorld) :
    (fit_canvas_step ww wh w).outerProjection.scale =
      ProjScale.finite (1 / (specFitScaleRound ww wh : ℚ)) := by
  have hmin : 0 ≤ min (ww / 160) (wh / 90) :=
    min_scales_nonneg 160 90 ww wh (by norm_num) (by norm_num) hww.le hwh.le
  have hfit : fitScale ww wh = specFitScaleRound ww wh := by
    rw [fitScale, fitScaleGen, res_width_cast, res_height_cast,
      rustRound_eq_floor _ hmin, specFitScaleRound]
  have hf2 : 1 ≤ specFitScaleRound ww wh := hfit ▸ hf
  have hne : specFitScaleRound ww wh ≠ 0 := by omega
  simp [fit_canvas_step, projFromFit, hfit, hne]

/-- Claim C1, witness: the amended statement instantiated at the 500 by 270
resize event. -/
theorem fit_canvas_sets_reciprocal_round_witness :
    0 < (500 : ℚ) ∧ 0 < (270 : ℚ) ∧ 1 ≤ fitScale 500 270 ∧
    (fit_canvas_step 500 270 demoWorld).outerProjection.scale =
      ProjScale.finite (1 / (specFitScaleRound 500 270 : ℚ)) :=
  ⟨by norm_num, by norm_num,
   by norm_num [fitScale, fitScaleGen, rustRound, RES_WIDTH, RES_HEIGHT],
   fit_canvas_sets_reciprocal_round 500 270 (by norm_num) (by norm_num)
     (by norm_num [fitScale, fitScaleGen, rustRound, RES_WIDTH, RES_HEIGHT])
     demoWorld⟩

/-- Claim C2, counterexample: with the source's buffer 160 by 90 and a
window of 240 by 135 the computed fit scale is `round(1.5) = 2`, which is
at least 1, yet `2 * 160 = 320 > 240`: the scaled buffer overflows the
window, refuting `fit_scale * bw <= ww`. -/
theorem fit_scale_no_overflow_cex :
    1 ≤ fitScaleGen 160 90 240 135 ∧
    ¬ ((fitScaleGen 160 90 240 135 : ℚ) * 160 ≤ 240) := by
  have h : fitScaleGen 160 90 240 135 = 2 := by
    norm_num [fitScaleGen, rustRound]
  rw [h]
  norm_num

/-- Claim C2, amended: because the handler rounds instead of flooring, the
scaled buffer can exceed the window, but by at most half a buffer dimension
per axis: for all positive `bw, bh` and nonnegative `ww, wh` with
`fit_scale >= 1`, `fit_scale * bw <= ww + bw / 2` and
`fit_scale * bh <= wh + bh / 2`. -/
theorem fit_scale_overflow_within_half (bw bh ww wh : ℚ) (hbw : 0 < bw)
    (hbh : 0 < bh) (hww : 0 ≤ ww) (hwh : 0 ≤ wh)
    (hf : 1 ≤ fitScaleGen bw bh ww wh) :
    (fitScaleGen bw bh ww wh : ℚ) * bw ≤ ww + bw / 2 ∧
    (fitScaleGen bw bh ww wh : ℚ) * bh ≤ wh + bh / 2 := by
  have hmin : 0 ≤ min (ww / bw) (wh / bh) :=
    min_scales_nonneg bw bh ww wh hbw hbh hww hwh
  have hle : (fitScaleGen bw bh ww wh : ℚ) ≤ min (ww / bw) (wh / bh) + 1 / 2 :=
    rustRound_le_add_half _ hmin
  constructor
  · have h1 : min (ww / bw) (wh / bh) ≤ ww / bw := min_le_left _ _
    have h2 : (fitScaleGen bw bh ww wh : ℚ) ≤ ww / bw + 1 / 2 := by linarith
    calc (fitScaleGen bw bh ww wh : ℚ) * bw ≤ (ww / bw + 1 / 2) * bw :=
          mul_le_mul_of_nonneg_right h2 hbw.le
      _ = ww + bw / 2 := by field_simp; ring
  · have h1 : min (ww / bw) (wh / bh) ≤ wh / bh := min_le_right _ _
    have h2 : (fitScaleGen bw bh ww wh : ℚ) ≤ wh / bh + 1 / 2 := by linarith
    calc (fitScaleGen bw bh ww wh : ℚ) * bh ≤ (wh / bh + 1 / 2) * bh :=
          mul_le_mul_of_nonneg_right h2 hbh.le
      _ = wh + bh / 2 := by field_simp; ring

/-- Claim C2, witness: the amended bound instantiated at buffer 160 by 90
and window 240 by 135, where it is tight: `2 * 160 = 320 = 240 + 80`. -/
theorem fit_scale_overflow_within_half_witness :
    0 < (160 : ℚ) ∧ 0 < (90 : ℚ) ∧ 0 ≤ (240 : ℚ) ∧ 0 ≤ (135 : ℚ) ∧
    1 ≤ fitScaleGen 160 90 240 135 ∧
    (fitScaleGen 160 90 240 135 : ℚ) * 160 ≤ 240 + 160 / 2 ∧
    (fitScaleGen 160 90 240 135 : ℚ) * 90 ≤ 135 + 90 / 2 :=
  ⟨by norm_num, by norm_num, by norm_num, by norm_num,
   by norm_num [fitScaleGen, rustRound],
   fit_scale_overflow_within_half 160 90 240 135 (by norm_num) (by norm_num)
     (by norm_num) (by norm_num) (by norm_num [fitScaleGen, rustRound])⟩

/-- Claim C3: contrary to the spec, a resize event with zero window width is
NOT a no-op.  `f32` division by zero does not fault, but the handler
computes `round(min(0 / 160, 270 / 90)) = 0` and assigns
`1.0 / 0.0 = +infinity` to the projection scale, changing it from the prior
valid value `1/2`. -/
theorem fit_canvas_zero_width_not_noop :
    demoWorld.outerProjection.scale = ProjScale.finite (1 / 2) ∧
    (fit_canvas_step 0 270 demoWorld).outerProjection.scale =
      ProjScale.posInf ∧
    (fit_canvas_step 0 270 demoWorld).outerProjection.scale ≠
      demoWorld.outerProjection.scale := by
  have h : fitScale 0 270 = 0 := by
    norm_num [fitScale, fitScaleGen, rustRound, RES_WIDTH, RES_HEIGHT]
  refine ⟨rfl, ?_, ?_⟩ <;> simp [fit_canvas_step, projFromFit, h, demoWorld]

/-- Claim C4: with the buffer fixed at 160 by 90, a 320 by 180 resize sets
the outer projection scale to exactly 1/2, and a 500 by 270 resize sets it
to 1/3, whatever the prior world state. -/
theorem fit_canvas_concrete_scales (w : PixelWorld) :
    (fit_canvas_step 320 180 w).outerProjection.scale =
      ProjScale.finite (1 / 2) ∧
    (fit_canvas_step 500 270 w).outerProjection.scale =
      ProjScale.finite (1 / 3) := by
  have h1 : fitScale 320 180 = 2 := by
    norm_num [fitScale, fitScaleGen, rustRound, RES_WIDTH, RES_HEIGHT]
  have h2 : fitScale 500 270 = 3 := by
    norm_num [fitScale, fitScaleGen, rustRound, RES_WIDTH, RES_HEIGHT]
  constructor <;> simp [fit_canvas_step, projFromFit, h1, h2]

/-- Claim C5: the resize handler is idempotent: processing the same resize
event twice yields the same outer projection scale both times. -/
theorem fit_canvas_idempotent (ww wh : ℚ) (w : PixelWorld) :
    (fit_canvas_step ww wh (fit_canvas_step ww wh w)).outerProjection.scale =
      (fit_canvas_step ww wh w).outerProjection.scale := rfl

/-- Claim C6: for any fixed positive buffer dimensions, enlarging the window
in either axis (without shrinking the other) never decreases the computed
fit scale. -/
theorem fit_scale_monotone (bw bh ww wh ww2 wh2 : ℚ) (hbw : 0 < bw)
    (hbh : 0 < bh) (hww : 0 ≤ ww) (hwh : 0 ≤ wh) (h1 : ww ≤ ww2)
    (h2 : wh ≤ wh2) :
    fitScaleGen bw bh ww wh ≤ fitScaleGen bw bh ww2 wh2 := by
  have hmin : 0 ≤ min (ww / bw) (wh / bh) :=
    min_scales_nonneg bw bh ww wh hbw hbh hww hwh
  have hle : min (ww / bw) (wh / bh) ≤ min (ww2 / bw) (wh2 / bh) :=
    min_le_min ((div_le_div_iff_of_pos_right hbw).mpr h1)
      ((div_le_div_iff_of_pos_right hbh).mpr h2)
  exact rustRound_mono _ _ hmin hle

/-- Claim C6, witness: monotonicity instantiated at buffer 160 by 90 and
windows 320 by 180 and 500 by 270. -/
theorem fit_scale_monotone_witness :
    0 < (160 : ℚ) ∧ 0 < (90 : ℚ) ∧ 0 ≤ (320 : ℚ) ∧ 0 ≤ (180 : ℚ) ∧
    (320 : ℚ) ≤ 500 ∧ (180 : ℚ) ≤ 270 ∧
    fitScaleGen 160 90 320 180 ≤ fitScaleGen 160 90 500 270 :=
  ⟨by norm_num, by norm_num, by norm_num, by norm_num, by norm_num,
   by norm_num,
   fit_scale_monotone 160 90 320 180 500 270 (by norm_num) (by norm_num)
     (by norm_num) (by norm_num) (by norm_num) (by norm_num)⟩

/-- Claim C7: a resize event leaves the inner camera, the outer camera's
other components, the canvas transform and every other entity untouched,
mutating only the outer projection; and whatever finite scale it writes is
one scalar applied uniformly to both viewport axes (the per-axis stretch
factors agree). -/
theorem fit_canvas_mutates_only_outer_projection (ww wh : ℚ) (w : PixelWorld) :
    (fit_canvas_step ww wh w).inGameCam = w.inGameCam ∧
    (fit_canvas_step ww wh w).outerCam = w.outerCam ∧
    (fit_canvas_step ww wh w).canvasTransform = w.canvasTransform ∧
    (fit_canvas_step ww wh w).entities = w.entities ∧
    (∀ q vw vh : ℚ,
      (fit_canvas_step ww wh w).outerProjection.scale = ProjScale.finite q →
      (projectedSize q vw vh).1 * vh = (projectedSize q vw vh).2 * vw) := by
  refine ⟨rfl, rfl, rfl, rfl, ?_⟩
  intro q vw vh _
  simp only [projectedSize]
  ring

/-- Claim C7, witness: the frame conditions and axis uniformity at the
320 by 180 resize on the demo world, where the written scale is 1/2. -/
theorem fit_canvas_mutates_only_outer_projection_witness :
    (fit_canvas_step 320 180 demoWorld).inGameCam = demoWorld.inGameCam ∧
    (fit_canvas_step 320 180 demoWorld).entities = demoWorld.entities ∧
    (projectedSize (1 / 2) 320 180).1 * 180 =
      (projectedSize (1 / 2) 320 180).2 * 320 := by
  have h := fit_canvas_mutates_only_outer_projection 320 180 demoWorld
  refine ⟨h.1, h.2.2.2.1, h.2.2.2.2 (1 / 2) 320 180 ?_⟩
  have h1 : fitScale 320 180 = 2 := by
    norm_num [fitScale, fitScaleGen, rustRound, RES_WIDTH, RES_HEIGHT]
  simp [fit_canvas_step, projFromFit, h1]

/-- Claim C8: after `setup_camera` (with `setup_sprite` and `setup_mesh`),
the in-game camera draws strictly before the outer camera, targets the
offscreen canvas image, and sees exactly the entities tagged with render
layer 1; the outer camera sees the canvas sprite (textured with that image)
and exactly the spawned entities NOT tagged with layer 1. -/
theorem setup_camera_wiring :
    drawsBefore inGameCamera outerCamera ∧
    inGameCamera.target = RenderTarget.image canvasImageHandle ∧
    (sceneEntities.all fun e => camSees inGameCamera e == taggedInner e) = true ∧
    camSees outerCamera canvasSprite = true ∧
    canvasSprite.texture = some canvasImageHandle ∧
    (sceneEntities.all fun e => camSees outerCamera e == !taggedInner e) = true := by
  refine ⟨?_, rfl, ?_, ?_, rfl, ?_⟩
  · show inGameCamera.order < outerCamera.order
    decide
  · decide
  · decide
  · decide

/-- Claim C9: processing a resize event with no outer orthographic
projection in the world makes `single_mut` panic (a fatal assertion,
modelled as an error); with exactly one outer camera the failure branch is
unreachable and the handler completes, returning the updated projection. -/
theorem fit_canvas_requires_single_outer (ww wh : ℚ) :
    fit_canvas_run ww wh [] = Except.error QueryErr.noEntities ∧
    ∀ p : OrthographicProjection,
      fit_canvas_run ww wh [p] =
        Except.ok [{ scale := projFromFit (fitScale ww wh) }] :=
  ⟨rfl, fun _ => rfl⟩

/-- Claim C10: one tick of `transform_drawables` preserves every entity's
`Drawable` tag, translation and scale; it adds `dt * pi / 2` radians of
z-rotation (that is, `dt / 2` in units of pi) to each drawable, and leaves
every non-drawable entity entirely unchanged. -/
theorem transform_drawables_only_rotates (dt : ℚ) (es : List Entity) (i : ℕ)
    (e eOut : Entity) (he : es[i]? = some e)
    (hout : (transform_drawables dt es)[i]? = some eOut) :
    eOut.drawable = e.drawable ∧
    eOut.transform.translation = e.transform.translation ∧
    eOut.transform.scale = e.transform.scale ∧
    (e.drawable = true →
      eOut.transform.rotationZPi = e.transform.rotationZPi + dt / 2) ∧
    (e.drawable = false → eOut = e) := by
  have hmap : eOut = (if e.drawable then
      { e with transform := rotateZ e.transform (dt / 2) } else e) := by
    rw [transform_drawables, List.getElem?_map, he] at hout
    exact (Option.some_inj.mp hout).symm
  cases hd : e.drawable <;> subst hmap <;> simp [hd, rotateZ]

/-- Claim C10, witness: the tick applied at `dt = 1` to a two-entity list,
checking the drawable at index 0 against its rotated form. -/
theorem transform_drawables_only_rotates_witness :
    demoEntities[0]? = some demoDrawable ∧
    (transform_drawables 1 demoEntities)[0]? = some demoRotated ∧
    (demoRotated.drawable = demoDrawable.drawable ∧
     demoRotated.transform.translation = demoDrawable.transform.translation ∧
     demoRotated.transform.scale = demoDrawable.transform.scale ∧
     (demoDrawable.drawable = true →
       demoRotated.transform.rotationZPi =
         demoDrawable.transform.rotationZPi + 1 / 2) ∧
     (demoDrawable.drawable = false → demoRotated = demoDrawable)) :=
  ⟨rfl, rfl,
   transform_drawables_only_rotates 1 demoEntities 0 demoDrawable demoRotated
     rfl rfl⟩
